import Mathlib

/-!
Shallow embedding of the badger badge service (main.go, github.go, gitlab.go):
per-provider metric fetchers, the state-dependent subject labels, the badge
parameter resolution stage (compute status, then non-empty query overrides),
and the HTTP handlers. The outbound GraphQL/HTTP clients and the external
badge.Create renderer are modelled as oracle parameters, so that theorems
quantify over every possible upstream behaviour.
-/

namespace Badger

/-- A Go error value as the handlers observe it: only its message, err.Error(). -/
structure GoErr where
  msg : String
  deriving DecidableEq, Repr

/-- The githubv4.IssueState values used by githubService.getIssueCount. -/
inductive IssueState where
  | IssueStateOpen
  | IssueStateClosed
  deriving DecidableEq, Repr

/-- The githubv4.PullRequestState values used by githubService.getPullRequestCount. -/
inductive PullRequestState where
  | PullRequestStateOpen
  | PullRequestStateClosed
  | PullRequestStateMerged
  deriving DecidableEq, Repr

/-- Decimal digit value of a character. -/
def digitVal (c : Char) : Option Nat :=
  if '0' ≤ c ∧ c ≤ '9' then some (c.toNat - '0'.toNat) else none

/-- Accumulate decimal digits left to right; any non-digit poisons the parse. -/
def parseDigits (cs : List Char) : Option Nat :=
  cs.foldl
    (fun acc c =>
      match acc, digitVal c with
      | some n, some d => some (n * 10 + d)
      | _, _ => none)
    (some 0)

/-- strconv.Atoi: optional sign then decimal digits; none models a non-nil
error, returned for an empty string, an invalid character, or a value outside
the 64-bit int range (callers here only test err, so the clamped value Go
returns alongside ErrRange never escapes). -/
def atoi (s : String) : Option Int :=
  match s.toList with
  | [] => none
  | c :: rest =>
    let signed : Bool × List Char :=
      if c = '-' then (true, rest)
      else if c = '+' then (false, rest)
      else (false, c :: rest)
    match signed.2 with
    | [] => none
    | ds =>
      match parseDigits ds with
      | none => none
      | some n =>
        let v : Int := if signed.1 then -(n : Int) else (n : Int)
        if v < -(2 ^ 63) ∨ (2 ^ 63 : Int) ≤ v then none else some v

/-- The error strconv.Atoi reports for an unparsable string (message shape of
strconv.NumError; the code only ever forwards it verbatim as err.Error()). -/
def atoiErr (s : String) : GoErr :=
  ⟨"strconv.Atoi: parsing \"" ++ s ++ "\": invalid syntax"⟩

/-- Oracle for the GitHub GraphQL client: for each query shape, the totalCount
the decoded query struct ends up holding together with the error client.Query
returns; githubService returns that pair unvalidated. -/
structure GithubClient where
  forksQuery : String → String → Int × Option GoErr
  issuesQuery : String → String → List IssueState → Int × Option GoErr
  pullRequestsQuery : String → String → List PullRequestState → Int × Option GoErr
  stargazersQuery : String → String → Int × Option GoErr

/-- The issueStates switch in githubService.getIssueCount. -/
def githubIssueStates (issueState : String) : List IssueState :=
  if issueState = "open" then [.IssueStateOpen]
  else if issueState = "closed" then [.IssueStateClosed]
  else [.IssueStateOpen, .IssueStateClosed]

/-- The pullRequestStates switch in githubService.getPullRequestCount. -/
def githubPullRequestStates (pullRequestState : String) : List PullRequestState :=
  if pullRequestState = "open" then [.PullRequestStateOpen]
  else if pullRequestState = "closed" then [.PullRequestStateClosed]
  else if pullRequestState = "merged" then [.PullRequestStateMerged]
  else [.PullRequestStateOpen, .PullRequestStateClosed, .PullRequestStateMerged]

/-- githubService.getForkCount. -/
def githubGetForkCount (c : GithubClient) (owner repo : String) : Int × Option GoErr :=
  c.forksQuery owner repo

/-- githubService.getIssueCount. -/
def githubGetIssueCount (c : GithubClient) (owner repo issueState : String) :
    Int × Option GoErr :=
  c.issuesQuery owner repo (githubIssueStates issueState)

/-- githubService.getPullRequestCount. -/
def githubGetPullRequestCount (c : GithubClient) (owner repo pullRequestState : String) :
    Int × Option GoErr :=
  c.pullRequestsQuery owner repo (githubPullRequestStates pullRequestState)

/-- githubService.getStargazerCount. -/
def githubGetStargazerCount (c : GithubClient) (owner repo : String) : Int × Option GoErr :=
  c.stargazersQuery owner repo

/-- The two fields of GitlabProjectsResponse the fetchers read. -/
structure GitlabProjectsResponse where
  starCount : Int
  forksCount : Int
  deriving DecidableEq, Repr

/-- An upstream GitLab HTTP response as the fetchers observe it: the X-Total
header value (empty string when the header is absent, as Header.Get reports)
and the outcome of decoding the body as a GitlabProjectsResponse. -/
structure GitlabResponse where
  xTotal : String
  projectBody : Except GoErr GitlabProjectsResponse

/-- Oracle for the outbound GitLab HTTP client, keyed by the request URL:
whether http.NewRequest fails, and what client.Do yields. -/
structure GitlabHttp where
  newRequestErr : String → Option GoErr
  respond : String → Except GoErr GitlabResponse

/-- Result of one fetcher call: a Go (count, err) return, or a process abort
through log.Fatal (the gitlab fetchers call log.Fatal on NewRequest and Do
failures, making the return statements after it dead code). -/
inductive FetchOutcome where
  | fatal
  | ret (count : Int) (err : Option GoErr)
  deriving DecidableEq, Repr

/-- fmt.Sprintf of "https://gitlab.com/api/v4/projects/%s%%2F%s" (the %%
escape prints a single percent sign). -/
def gitlabProjectURL (owner repo : String) : String :=
  "https://gitlab.com/api/v4/projects/" ++ owner ++ "%2F" ++ repo

/-- Base URL of gitlabService.getIssueCount. -/
def gitlabIssuesURL (owner repo : String) : String :=
  gitlabProjectURL owner repo ++ "/issues"

/-- Base URL of gitlabService.getPullRequestCount. -/
def gitlabMergeRequestsURL (owner repo : String) : String :=
  gitlabProjectURL owner repo ++ "/merge_requests"

/-- URL after the state switch in gitlabService.getIssueCount. -/
def gitlabIssueCountURL (owner repo issueState : String) : String :=
  let url := gitlabIssuesURL owner repo
  if issueState = "opened" then url ++ "?state=opened"
  else if issueState = "closed" then url ++ "?state=closed"
  else url

/-- URL after the state switch in gitlabService.getPullRequestCount. -/
def gitlabMergeRequestCountURL (owner repo pullRequestState : String) : String :=
  let url := gitlabMergeRequestsURL owner repo
  if pullRequestState = "opened" then url ++ "?state=opened"
  else if pullRequestState = "closed" then url ++ "?state=closed"
  else if pullRequestState = "locked" then url ++ "?state=locked"
  else if pullRequestState = "merged" then url ++ "?state=merged"
  else url

/-- gitlabService.getForkCount. -/
def gitlabGetForkCount (h : GitlabHttp) (owner repo : String) : FetchOutcome :=
  let url := gitlabProjectURL owner repo
  match h.newRequestErr url with
  | some _ => .fatal
  | none =>
    match h.respond url with
    | .error _ => .fatal
    | .ok resp =>
      match resp.projectBody with
      | .error e => .ret (-1) (some e)
      | .ok project => .ret project.forksCount none

/-- gitlabService.getIssueCount. -/
def gitlabGetIssueCount (h : GitlabHttp) (owner repo issueState : String) : FetchOutcome :=
  let url := gitlabIssueCountURL owner repo issueState
  match h.newRequestErr url with
  | some _ => .fatal
  | none =>
    match h.respond url with
    | .error _ => .fatal
    | .ok resp =>
      match atoi resp.xTotal with
      | none => .ret (-1) (some (atoiErr resp.xTotal))
      | some issueCount => .ret issueCount none

/-- gitlabService.getPullRequestCount. -/
def gitlabGetPullRequestCount (h : GitlabHttp) (owner repo pullRequestState : String) :
    FetchOutcome :=
  let url := gitlabMergeRequestCountURL owner repo pullRequestState
  match h.newRequestErr url with
  | some _ => .fatal
  | none =>
    match h.respond url with
    | .error _ => .fatal
    | .ok resp =>
      match atoi resp.xTotal with
      | none => .ret (-1) (some (atoiErr resp.xTotal))
      | some issueCount => .ret issueCount none

/-- gitlabService.getStargazerCount. -/
def gitlabGetStargazerCount (h : GitlabHttp) (owner repo : String) : FetchOutcome :=
  let url := gitlabProjectURL owner repo
  match h.newRequestErr url with
  | some _ => .fatal
  | none =>
    match h.respond url with
    | .error _ => .fatal
    | .ok resp =>
      match resp.projectBody with
      | .error e => .ret (-1) (some e)
      | .ok project => .ret project.starCount none

/-- The six r.URL.Query().Get values a handler reads; Get returns the empty
string when the parameter is absent. -/
structure QueryParams where
  state : String
  color : String
  status : String
  subject : String
  icon : String
  style : String
  deriving DecidableEq, Repr

/-- The mux route variables plus the query string of one inbound request. -/
structure BadgeRequest where
  owner : String
  repo : String
  requestType : String
  query : QueryParams
  deriving DecidableEq, Repr

/-- The resolved arguments handed to badge.Create. -/
structure BadgeParams where
  subject : String
  status : String
  color : String
  icon : String
  style : String
  deriving DecidableEq, Repr

/-- badge.Options as built by the handlers. -/
structure BadgeOptions where
  color : String
  icon : String
  style : String
  deriving DecidableEq, Repr

/-- The external badge.Create collaborator: from subject, status and options
to SVG markup or a render error. -/
abbrev RenderOracle : Type :=
  String → String → BadgeOptions → Except GoErr String

/-- badge.Create(subject, status, &createOptions) as the handlers invoke it. -/
def renderCall (render : RenderOracle) (p : BadgeParams) : Except GoErr String :=
  render p.subject p.status ⟨p.color, p.icon, p.style⟩

/-- Subject switch of the github issues branch. -/
def githubIssueSubject (state : String) : String :=
  if state = "open" then "open issues"
  else if state = "closed" then "closed issues"
  else "issues"

/-- Subject switch of the github pull-requests branch. -/
def githubPullRequestSubject (state : String) : String :=
  if state = "open" then "open PRs"
  else if state = "closed" then "closed PRs"
  else if state = "merged" then "merged PRs"
  else "PRs"

/-- Subject switch of the gitlab issues branch. -/
def gitlabIssueSubject (state : String) : String :=
  if state = "opened" then "opened issues"
  else if state = "closed" then "closed issues"
  else "issues"

/-- Subject switch of the gitlab merge-requests branch. -/
def gitlabMergeRequestSubject (state : String) : String :=
  if state = "opened" then "opened MRs"
  else if state = "closed" then "closed MRs"
  else if state = "locked" then "locked MRs"
  else if state = "merged" then "merged MRs"
  else "MRs"

/-- The requestType switch of githubService.Handler: the subject and the
(value, err) pair; the default branch leaves the declared zero values, so no
fetch happens there. The state parameter is read once and feeds both the
subject switch and the fetcher argument, as in the source. -/
def githubFetchStage (c : GithubClient) (req : BadgeRequest) :
    String × (Int × Option GoErr) :=
  if req.requestType = "forks" then
    ("forks", githubGetForkCount c req.owner req.repo)
  else if req.requestType = "issues" then
    let state := req.query.state
    (githubIssueSubject state, githubGetIssueCount c req.owner req.repo state)
  else if req.requestType = "pull-requests" then
    let state := req.query.state
    (githubPullRequestSubject state, githubGetPullRequestCount c req.owner req.repo state)
  else if req.requestType = "stars" then
    ("stars", githubGetStargazerCount c req.owner req.repo)
  else
    ("", (0, none))

/-- The requestType switch of gitlabService.Handler. -/
def gitlabFetchStage (h : GitlabHttp) (req : BadgeRequest) : String × FetchOutcome :=
  if req.requestType = "forks" then
    ("forks", gitlabGetForkCount h req.owner req.repo)
  else if req.requestType = "issues" then
    let state := req.query.state
    (gitlabIssueSubject state, gitlabGetIssueCount h req.owner req.repo state)
  else if req.requestType = "merge-requests" then
    let state := req.query.state
    (gitlabMergeRequestSubject state, gitlabGetPullRequestCount h req.owner req.repo state)
  else if req.requestType = "stars" then
    ("stars", gitlabGetStargazerCount h req.owner req.repo)
  else
    ("", .ret 0 none)

/-- The compute-status and override block of githubService.Handler: status is
the error message when err is non-nil, else strconv.Itoa(value); then each of
color, status, subject is overwritten by its query value when that value is
non-empty; icon and style are taken from the query unconditionally. -/
def githubResolveParams (subject0 : String) (value : Int) (err : Option GoErr)
    (q : QueryParams) : BadgeParams :=
  let status0 :=
    match err with
    | some e => e.msg
    | none => toString value
  let color := if q.color ≠ "" then q.color else ""
  let status := if q.status ≠ "" then q.status else status0
  let subject := if q.subject ≠ "" then q.subject else subject0
  ⟨subject, status, color, q.icon, q.style⟩

/-- The compute-status and override block of gitlabService.Handler, transcribed
separately from gitlab.go (its text is line for line the same as the github
one; the equivalence is proved, not assumed). -/
def gitlabResolveParams (subject0 : String) (value : Int) (err : Option GoErr)
    (q : QueryParams) : BadgeParams :=
  let status0 :=
    match err with
    | some e => e.msg
    | none => toString value
  let color := if q.color ≠ "" then q.color else ""
  let status := if q.status ≠ "" then q.status else status0
  let subject := if q.subject ≠ "" then q.subject else subject0
  ⟨subject, status, color, q.icon, q.style⟩

/-- What the handler writes: a status code, response headers in the order they
are set, and the body. -/
structure HttpResponse where
  statusCode : Nat
  headers : List (String × String)
  body : String
  deriving DecidableEq, Repr

/-- Outcome of one handler invocation; fatal is a log.Fatal process abort
inside a gitlab fetcher, in which case no response is written at all. -/
inductive HandlerResult where
  | fatal
  | response (r : HttpResponse)
  deriving DecidableEq, Repr

/-- http.Error(w, msg, code): plain-text content type, nosniff, message plus
a trailing newline as the body. -/
def httpError (msg : String) (code : Nat) : HttpResponse :=
  ⟨code,
   [("Content-Type", "text/plain; charset=utf-8"),
    ("X-Content-Type-Options", "nosniff")],
   msg ++ "\n"⟩

/-- The success path: cache and SVG content-type headers, the implicit 200
from the first Write, and the generated badge as the body. -/
def badgeResponse (generatedBadge : String) : HttpResponse :=
  ⟨200,
   [("Cache-Control", "public, max-age=3600, s-maxage=3600"),
    ("Content-Type", "image/svg+xml;utf-8")],
   generatedBadge⟩

/-- githubService.Handler: fetch stage, resolve stage, render, write. -/
def githubHandler (c : GithubClient) (render : RenderOracle) (req : BadgeRequest) :
    HandlerResult :=
  let fetched := githubFetchStage c req
  let params := githubResolveParams fetched.1 fetched.2.1 fetched.2.2 req.query
  match renderCall render params with
  | .error _ => .response (httpError "Internal Server Error" 500)
  | .ok generatedBadge => .response (badgeResponse generatedBadge)

/-- gitlabService.Handler: as githubHandler, except a fetcher may abort the
process through log.Fatal, in which case no response is produced. -/
def gitlabHandler (h : GitlabHttp) (render : RenderOracle) (req : BadgeRequest) :
    HandlerResult :=
  match gitlabFetchStage h req with
  | (_, .fatal) => .fatal
  | (subject0, .ret value err) =>
    let params := gitlabResolveParams subject0 value err req.query
    match renderCall render params with
    | .error _ => .response (httpError "Internal Server Error" 500)
    | .ok generatedBadge => .response (badgeResponse generatedBadge)

/-- Query string with every parameter absent. -/
def emptyQuery : QueryParams := ⟨"", "", "", "", "", ""⟩

/-- GraphQL client whose every query fails with the given message. -/
def errClient (msg : String) : GithubClient :=
  ⟨fun _ _ => (0, some ⟨msg⟩), fun _ _ _ => (0, some ⟨msg⟩),
   fun _ _ _ => (0, some ⟨msg⟩), fun _ _ => (0, some ⟨msg⟩)⟩

/-- GraphQL client whose every query succeeds with count n. -/
def okClient (n : Int) : GithubClient :=
  ⟨fun _ _ => (n, none), fun _ _ _ => (n, none),
   fun _ _ _ => (n, none), fun _ _ => (n, none)⟩

/-- GitLab upstream answering every URL with the given X-Total header and a
decoded project body. -/
def gitlabOkWorld (xTotal : String) (stars forks : Int) : GitlabHttp :=
  ⟨fun _ => none, fun _ => .ok ⟨xTotal, .ok ⟨stars, forks⟩⟩⟩

/-- GitLab upstream whose responses carry no X-Total header and a body that
fails to decode with the given message. -/
def gitlabErrWorld (msg : String) : GitlabHttp :=
  ⟨fun _ => none, fun _ => .ok ⟨"", .error ⟨msg⟩⟩⟩

/-- Renderer that always succeeds, echoing subject and status into the SVG. -/
def okRender : RenderOracle :=
  fun subject status _ => .ok ("svg:" ++ subject ++ ":" ++ status)

/-- Renderer that rejects the style named "badstyle", as badge.Create rejects
an invalid style name, and succeeds otherwise. -/
def pickyRender : RenderOracle :=
  fun subject status opts =>
    if opts.style = "badstyle" then .error ⟨"invalid style"⟩
    else .ok ("svg:" ++ subject ++ ":" ++ status)

/-- A forks request with no query parameters. -/
def reqForks : BadgeRequest := ⟨"a", "b", "forks", emptyQuery⟩

/-- A forks request whose style parameter the renderer rejects. -/
def reqForksBadStyle : BadgeRequest := ⟨"a", "b", "forks", ⟨"", "", "", "", "", "badstyle"⟩⟩

/-- Claim C9: the status-computation and override stage is the identical
function in the GitHub and GitLab handlers: on equal inputs both produce equal
resolved badge parameters. -/
theorem resolve_stages_equal (subject0 : String) (value : Int) (err : Option GoErr)
    (q : QueryParams) :
    githubResolveParams subject0 value err q = gitlabResolveParams subject0 value err q :=
  rfl

/-- Claim C2: a non-empty color, status or subject query value replaces the
computed value verbatim in the resolved badge parameters of both handlers,
regardless of the fetch outcome, while an empty value leaves the computed
value (empty color, computed status, computed subject) in place. -/
theorem nonempty_overrides_win (subject0 : String) (value : Int) (err : Option GoErr)
    (q : QueryParams) :
    (q.color ≠ "" → (githubResolveParams subject0 value err q).color = q.color ∧
       (gitlabResolveParams subject0 value err q).color = q.color) ∧
    (q.color = "" → (githubResolveParams subject0 value err q).color = "" ∧
       (gitlabResolveParams subject0 value err q).color = "") ∧
    (q.status ≠ "" → (githubResolveParams subject0 value err q).status = q.status ∧
       (gitlabResolveParams subject0 value err q).status = q.status) ∧
    (q.status = "" →
       (githubResolveParams subject0 value err q).status =
         (match err with | some e => e.msg | none => toString value) ∧
       (gitlabResolveParams subject0 value err q).status =
         (match err with | some e => e.msg | none => toString value)) ∧
    (q.subject ≠ "" → (githubResolveParams subject0 value err q).subject = q.subject ∧
       (gitlabResolveParams subject0 value err q).subject = q.subject) ∧
    (q.subject = "" → (githubResolveParams subject0 value err q).subject = subject0 ∧
       (gitlabResolveParams subject0 value err q).subject = subject0) := by
  refine ⟨?_, ?_, ?_, ?_, ?_, ?_⟩ <;> intro hq <;>
    simp [githubResolveParams, gitlabResolveParams, hq]

/-- Claim C2 witness: concrete override behaviour at non-empty and at empty
query values, with a successful fetch of count 5. -/
theorem nonempty_overrides_win_check :
    (githubResolveParams "forks" 5 none ⟨"", "orange", "99", "mysub", "", ""⟩).color = "orange" ∧
    (gitlabResolveParams "forks" 5 none ⟨"", "orange", "99", "mysub", "", ""⟩).status = "99" ∧
    (githubResolveParams "forks" 5 none ⟨"", "orange", "99", "mysub", "", ""⟩).subject = "mysub" ∧
    (githubResolveParams "forks" 5 none emptyQuery).status = "5" ∧
    (gitlabResolveParams "forks" 5 none emptyQuery).subject = "forks" := by
  have h1 := nonempty_overrides_win "forks" 5 none ⟨"", "orange", "99", "mysub", "", ""⟩
  have h2 := nonempty_overrides_win "forks" 5 none emptyQuery
  exact ⟨(h1.1 (by decide)).1, (h1.2.2.1 (by decide)).2, (h1.2.2.2.2.1 (by decide)).1,
    (h2.2.2.2.1 rfl).1, (h2.2.2.2.2.2 rfl).2⟩

/-- Claim C5: for each (provider, metric) pair, a state value outside that
pair's recognized vocabulary (including the absent, empty one) makes the
computed subject the all-states default label of the fixed table. -/
theorem unrecognized_state_default_label (c : GithubClient) (h : GitlabHttp)
    (req : BadgeRequest) :
    (req.requestType = "issues" → req.query.state ∉ (["open", "closed"] : List String) →
       (githubFetchStage c req).1 = "issues") ∧
    (req.requestType = "pull-requests" →
       req.query.state ∉ (["open", "closed", "merged"] : List String) →
       (githubFetchStage c req).1 = "PRs") ∧
    (req.requestType = "issues" → req.query.state ∉ (["opened", "closed"] : List String) →
       (gitlabFetchStage h req).1 = "issues") ∧
    (req.requestType = "merge-requests" →
       req.query.state ∉ (["opened", "closed", "merged", "locked"] : List String) →
       (gitlabFetchStage h req).1 = "MRs") := by
  refine ⟨?_, ?_, ?_, ?_⟩ <;> intro ht hs <;> simp at hs <;>
    simp [githubFetchStage, gitlabFetchStage, ht, githubIssueSubject,
      githubPullRequestSubject, gitlabIssueSubject, gitlabMergeRequestSubject, hs]

/-- Claim C5 witness: the state value "weird" yields the default labels. -/
theorem unrecognized_state_default_label_check :
    (githubFetchStage (okClient 4) ⟨"a", "b", "issues", ⟨"weird", "", "", "", "", ""⟩⟩).1 =
      "issues" ∧
    (githubFetchStage (okClient 4) ⟨"a", "b", "pull-requests", ⟨"weird", "", "", "", "", ""⟩⟩).1 =
      "PRs" ∧
    (gitlabFetchStage (gitlabOkWorld "7" 1 2) ⟨"a", "b", "issues", ⟨"weird", "", "", "", "", ""⟩⟩).1 =
      "issues" ∧
    (gitlabFetchStage (gitlabOkWorld "7" 1 2)
        ⟨"a", "b", "merge-requests", ⟨"weird", "", "", "", "", ""⟩⟩).1 = "MRs" := by
  refine ⟨?_, ?_, ?_, ?_⟩
  · exact (unrecognized_state_default_label (okClient 4) (gitlabOkWorld "7" 1 2)
      ⟨"a", "b", "issues", ⟨"weird", "", "", "", "", ""⟩⟩).1 rfl (by decide)
  · exact (unrecognized_state_default_label (okClient 4) (gitlabOkWorld "7" 1 2)
      ⟨"a", "b", "pull-requests", ⟨"weird", "", "", "", "", ""⟩⟩).2.1 rfl (by decide)
  · exact (unrecognized_state_default_label (okClient 4) (gitlabOkWorld "7" 1 2)
      ⟨"a", "b", "issues", ⟨"weird", "", "", "", "", ""⟩⟩).2.2.1 rfl (by decide)
  · exact (unrecognized_state_default_label (okClient 4) (gitlabOkWorld "7" 1 2)
      ⟨"a", "b", "merge-requests", ⟨"weird", "", "", "", "", ""⟩⟩).2.2.2 rfl (by decide)

/-- Claim C6: a gitlab state filter is appended to the request URL only for
opened and closed on issues, and only for opened, closed, locked and merged on
merge requests; any other state value leaves the unfiltered URL. -/
theorem gitlab_state_filter_url (owner repo s : String) :
    gitlabIssueCountURL owner repo "opened" = gitlabIssuesURL owner repo ++ "?state=opened" ∧
    gitlabIssueCountURL owner repo "closed" = gitlabIssuesURL owner repo ++ "?state=closed" ∧
    (s ∉ (["opened", "closed"] : List String) →
       gitlabIssueCountURL owner repo s = gitlabIssuesURL owner repo) ∧
    gitlabMergeRequestCountURL owner repo "opened" =
      gitlabMergeRequestsURL owner repo ++ "?state=opened" ∧
    gitlabMergeRequestCountURL owner repo "closed" =
      gitlabMergeRequestsURL owner repo ++ "?state=closed" ∧
    gitlabMergeRequestCountURL owner repo "locked" =
      gitlabMergeRequestsURL owner repo ++ "?state=locked" ∧
    gitlabMergeRequestCountURL owner repo "merged" =
      gitlabMergeRequestsURL owner repo ++ "?state=merged" ∧
    (s ∉ (["opened", "closed", "merged", "locked"] : List String) →
       gitlabMergeRequestCountURL owner repo s = gitlabMergeRequestsURL owner repo) := by
  refine ⟨rfl, rfl, ?_, rfl, rfl, rfl, rfl, ?_⟩ <;> intro hs <;> simp at hs <;>
    simp [gitlabIssueCountURL, gitlabMergeRequestCountURL, hs]

/-- Claim C6 witness: the unrecognized state "all" leaves both URLs
unfiltered. -/
theorem gitlab_state_filter_url_check :
    gitlabIssueCountURL "a" "b" "all" = gitlabIssuesURL "a" "b" ∧
    gitlabMergeRequestCountURL "a" "b" "all" = gitlabMergeRequestsURL "a" "b" := by
  have h := gitlab_state_filter_url "a" "b" "all"
  exact ⟨h.2.2.1 (by decide), h.2.2.2.2.2.2.2 (by decide)⟩

/-- Claim C7: with an unrecognized or absent state filter, the github fetchers
hand the GraphQL query the explicit list of every accepted state value rather
than omitting the states argument. -/
theorem github_states_exhaustive (c : GithubClient) (owner repo s : String) :
    (s ∉ (["open", "closed"] : List String) →
       githubIssueStates s = [.IssueStateOpen, .IssueStateClosed] ∧
       githubGetIssueCount c owner repo s =
         c.issuesQuery owner repo [.IssueStateOpen, .IssueStateClosed]) ∧
    (s ∉ (["open", "closed", "merged"] : List String) →
       githubPullRequestStates s =
         [.PullRequestStateOpen, .PullRequestStateClosed, .PullRequestStateMerged] ∧
       githubGetPullRequestCount c owner repo s =
         c.pullRequestsQuery owner repo
           [.PullRequestStateOpen, .PullRequestStateClosed, .PullRequestStateMerged]) := by
  constructor <;> intro hs <;> simp at hs <;>
    simp [githubIssueStates, githubPullRequestStates, githubGetIssueCount,
      githubGetPullRequestCount, hs]

/-- Claim C7 witness: the absent (empty) state requests every state value. -/
theorem github_states_exhaustive_check :
    githubIssueStates "" = [.IssueStateOpen, .IssueStateClosed] ∧
    githubGetPullRequestCount (okClient 3) "a" "b" "" =
      (okClient 3).pullRequestsQuery "a" "b"
        [.PullRequestStateOpen, .PullRequestStateClosed, .PullRequestStateMerged] := by
  have h := github_states_exhaustive (okClient 3) "a" "b" ""
  exact ⟨(h.1 (by decide)).1, (h.2 (by decide)).2⟩

/-- Claim C10: in every state-bearing handler branch (issues and pull
requests on github, issues and merge requests on gitlab) the subject and the
filter handed to the fetcher come from the same single read of the state
query value, and the label matches the filter: the subject is "closed issues"
exactly when the state given to the issue fetcher is "closed", and "merged
PRs" / "merged MRs" exactly when the state given to the pull-request fetcher
is "merged". -/
theorem subject_matches_state_filter (c : GithubClient) (h : GitlabHttp)
    (req : BadgeRequest) (s : String) :
    (req.requestType = "issues" →
       githubFetchStage c req =
         (githubIssueSubject req.query.state,
          githubGetIssueCount c req.owner req.repo req.query.state) ∧
       gitlabFetchStage h req =
         (gitlabIssueSubject req.query.state,
          gitlabGetIssueCount h req.owner req.repo req.query.state)) ∧
    (req.requestType = "pull-requests" →
       githubFetchStage c req =
         (githubPullRequestSubject req.query.state,
          githubGetPullRequestCount c req.owner req.repo req.query.state)) ∧
    (req.requestType = "merge-requests" →
       gitlabFetchStage h req =
         (gitlabMergeRequestSubject req.query.state,
          gitlabGetPullRequestCount h req.owner req.repo req.query.state)) ∧
    (githubIssueSubject s = "closed issues" ↔ s = "closed") ∧
    (gitlabIssueSubject s = "closed issues" ↔ s = "closed") ∧
    (githubPullRequestSubject s = "merged PRs" ↔ s = "merged") ∧
    (gitlabMergeRequestSubject s = "merged MRs" ↔ s = "merged") := by
  refine ⟨fun ht => ⟨?_, ?_⟩, fun ht => ?_, fun ht => ?_, ?_, ?_, ?_, ?_⟩
  · simp [githubFetchStage, ht]
  · simp [gitlabFetchStage, ht]
  · simp [githubFetchStage, ht]
  · simp [gitlabFetchStage, ht]
  · unfold githubIssueSubject
    by_cases h1 : s = "open"
    · simp [h1]
    · by_cases h2 : s = "closed" <;> simp [h1, h2]
  · unfold gitlabIssueSubject
    by_cases h1 : s = "opened"
    · simp [h1]
    · by_cases h2 : s = "closed" <;> simp [h1, h2]
  · unfold githubPullRequestSubject
    by_cases h1 : s = "open"
    · simp [h1]
    · by_cases h2 : s = "closed"
      · simp [h1, h2]
      · by_cases h3 : s = "merged" <;> simp [h1, h2, h3]
  · unfold gitlabMergeRequestSubject
    by_cases h1 : s = "opened"
    · simp [h1]
    · by_cases h2 : s = "closed"
      · simp [h1, h2]
      · by_cases h3 : s = "locked"
        · simp [h1, h2, h3]
        · by_cases h4 : s = "merged" <;> simp [h1, h2, h3, h4]

/-- Claim C10 witness: with state "closed" the github issues branch labels the
badge "closed issues" and passes "closed" to the fetcher; with state "merged"
the github pull-requests and gitlab merge-requests branches label the badge
"merged PRs" / "merged MRs" and pass "merged" to the fetcher; an unrecognized
state never yields the "closed issues" label. -/
theorem subject_matches_state_filter_check :
    githubFetchStage (okClient 2) ⟨"a", "b", "issues", ⟨"closed", "", "", "", "", ""⟩⟩ =
      (githubIssueSubject "closed", githubGetIssueCount (okClient 2) "a" "b" "closed") ∧
    githubIssueSubject "closed" = "closed issues" ∧
    gitlabIssueSubject "weird" ≠ "closed issues" ∧
    githubFetchStage (okClient 2) ⟨"a", "b", "pull-requests", ⟨"merged", "", "", "", "", ""⟩⟩ =
      (githubPullRequestSubject "merged",
       githubGetPullRequestCount (okClient 2) "a" "b" "merged") ∧
    githubPullRequestSubject "merged" = "merged PRs" ∧
    gitlabFetchStage (gitlabOkWorld "7" 0 0)
        ⟨"a", "b", "merge-requests", ⟨"merged", "", "", "", "", ""⟩⟩ =
      (gitlabMergeRequestSubject "merged",
       gitlabGetPullRequestCount (gitlabOkWorld "7" 0 0) "a" "b" "merged") ∧
    gitlabMergeRequestSubject "merged" = "merged MRs" := by
  have h := subject_matches_state_filter (okClient 2) (gitlabOkWorld "7" 0 0)
    ⟨"a", "b", "issues", ⟨"closed", "", "", "", "", ""⟩⟩ "closed"
  have h2 := subject_matches_state_filter (okClient 2) (gitlabOkWorld "7" 0 0)
    ⟨"a", "b", "issues", ⟨"closed", "", "", "", "", ""⟩⟩ "weird"
  have h3 := subject_matches_state_filter (okClient 2) (gitlabOkWorld "7" 0 0)
    ⟨"a", "b", "pull-requests", ⟨"merged", "", "", "", "", ""⟩⟩ "merged"
  have h4 := subject_matches_state_filter (okClient 2) (gitlabOkWorld "7" 0 0)
    ⟨"a", "b", "merge-requests", ⟨"merged", "", "", "", "", ""⟩⟩ "merged"
  exact ⟨(h.1 rfl).1, h.2.2.2.1.mpr rfl,
    fun hc => absurd (h2.2.2.2.2.1.mp hc) (by decide),
    h3.2.1 rfl, h3.2.2.2.2.2.1.mpr rfl,
    h4.2.2.1 rfl, h4.2.2.2.2.2.2.mpr rfl⟩

/-- Claim C3: a requestType matching none of a handler's own switch branches
performs no fetch in that handler (the stage result is the same for every
upstream oracle): it proceeds with an empty subject, a zero value and no
error, and the handler still renders a badge response. Each provider's
conclusion assumes only that provider's four branch names, so it covers for
example a github request with requestType "merge-requests" and a gitlab
request with requestType "pull-requests". -/
theorem unknown_requestType_falls_through (c : GithubClient) (h : GitlabHttp)
    (render : RenderOracle) (req : BadgeRequest) :
    (req.requestType ≠ "forks" → req.requestType ≠ "issues" →
     req.requestType ≠ "pull-requests" → req.requestType ≠ "stars" →
       githubFetchStage c req = ("", (0, none)) ∧
       ∀ svg, renderCall render (githubResolveParams "" 0 none req.query) = .ok svg →
         githubHandler c render req = .response (badgeResponse svg)) ∧
    (req.requestType ≠ "forks" → req.requestType ≠ "issues" →
     req.requestType ≠ "merge-requests" → req.requestType ≠ "stars" →
       gitlabFetchStage h req = ("", .ret 0 none) ∧
       ∀ svg, renderCall render (gitlabResolveParams "" 0 none req.query) = .ok svg →
         gitlabHandler h render req = .response (badgeResponse svg)) := by
  refine ⟨fun h1 h2 h3 h5 => ?_, fun h1 h2 h4 h5 => ?_⟩
  · have hg : githubFetchStage c req = ("", (0, none)) := by
      simp [githubFetchStage, h1, h2, h3, h5]
    exact ⟨hg, fun svg hr => by simp [githubHandler, hg, hr]⟩
  · have hl : gitlabFetchStage h req = ("", .ret 0 none) := by
      simp [gitlabFetchStage, h1, h2, h4, h5]
    exact ⟨hl, fun svg hr => by simp [gitlabHandler, hl, hr]⟩

/-- Claim C3 witness: the requestType "merge-requests" falls through the
github handler and "pull-requests" falls through the gitlab handler; both
still yield a badge whose subject is empty and whose status is "0". -/
theorem unknown_requestType_falls_through_check :
    githubFetchStage (okClient 5) ⟨"a", "b", "merge-requests", emptyQuery⟩ = ("", (0, none)) ∧
    githubHandler (okClient 5) okRender ⟨"a", "b", "merge-requests", emptyQuery⟩ =
      .response (badgeResponse "svg::0") ∧
    gitlabFetchStage (gitlabOkWorld "7" 1 2) ⟨"a", "b", "pull-requests", emptyQuery⟩ =
      ("", .ret 0 none) ∧
    gitlabHandler (gitlabOkWorld "7" 1 2) okRender ⟨"a", "b", "pull-requests", emptyQuery⟩ =
      .response (badgeResponse "svg::0") := by
  have hg := (unknown_requestType_falls_through (okClient 5) (gitlabOkWorld "7" 1 2) okRender
    ⟨"a", "b", "merge-requests", emptyQuery⟩).1 (by decide) (by decide) (by decide) (by decide)
  have hl := (unknown_requestType_falls_through (okClient 5) (gitlabOkWorld "7" 1 2) okRender
    ⟨"a", "b", "pull-requests", emptyQuery⟩).2 (by decide) (by decide) (by decide) (by decide)
  exact ⟨hg.1, hg.2 "svg::0" rfl, hl.1, hl.2 "svg::0" rfl⟩

/-- Claim C1 counterexample: a request whose fetch returns a FetchError and
whose style the renderer rejects gets an HTTP 500 response even with no
status override, so a FetchError does not always result in HTTP 200. -/
theorem fetch_error_can_still_give_500 :
    (githubFetchStage (errClient "connect failed") reqForksBadStyle).2.2 =
      some ⟨"connect failed"⟩ ∧
    reqForksBadStyle.query.status = "" ∧
    githubHandler (errClient "connect failed") pickyRender reqForksBadStyle =
      .response (httpError "Internal Server Error" 500) ∧
    (httpError "Internal Server Error" 500).statusCode = 500 :=
  ⟨rfl, rfl, rfl, rfl⟩

/-- Claim C1 (amended): when the fetch returns a FetchError and no non-empty
status override is supplied, the resolved status text equals the error's
message, and provided the renderer succeeds on the resolved parameters the
service responds HTTP 200 with that badge (a renderer failure still yields
HTTP 500). -/
theorem fetch_error_status_is_message (c : GithubClient) (h : GitlabHttp)
    (render : RenderOracle) (req : BadgeRequest) (subj : String) (v : Int) (e : GoErr) :
    (githubFetchStage c req = (subj, (v, some e)) → req.query.status = "" →
       (githubResolveParams subj v (some e) req.query).status = e.msg ∧
       ∀ svg, renderCall render (githubResolveParams subj v (some e) req.query) = .ok svg →
         githubHandler c render req = .response (badgeResponse svg) ∧
         (badgeResponse svg).statusCode = 200) ∧
    (gitlabFetchStage h req = (subj, .ret v (some e)) → req.query.status = "" →
       (gitlabResolveParams subj v (some e) req.query).status = e.msg ∧
       ∀ svg, renderCall render (gitlabResolveParams subj v (some e) req.query) = .ok svg →
         gitlabHandler h render req = .response (badgeResponse svg) ∧
         (badgeResponse svg).statusCode = 200) := by
  refine ⟨fun hf hq => ?_, fun hf hq => ?_⟩
  · exact ⟨by simp [githubResolveParams, hq],
      fun svg hr => ⟨by simp [githubHandler, hf, hr], rfl⟩⟩
  · exact ⟨by simp [gitlabResolveParams, hq],
      fun svg hr => ⟨by simp [gitlabHandler, hf, hr], rfl⟩⟩

/-- Claim C1 witness: a failing GraphQL call on github and a failing body
decode on gitlab both surface their message as the badge status of an HTTP
200 response. -/
theorem fetch_error_status_is_message_check :
    (githubResolveParams "forks" 0 (some ⟨"boom"⟩) emptyQuery).status = "boom" ∧
    githubHandler (errClient "boom") okRender reqForks =
      .response (badgeResponse "svg:forks:boom") ∧
    gitlabHandler (gitlabErrWorld "EOF") okRender reqForks =
      .response (badgeResponse "svg:forks:EOF") := by
  have hg := (fetch_error_status_is_message (errClient "boom") (gitlabErrWorld "EOF")
    okRender reqForks "forks" 0 ⟨"boom"⟩).1 rfl rfl
  have hl := (fetch_error_status_is_message (errClient "boom") (gitlabErrWorld "EOF")
    okRender reqForks "forks" (-1) ⟨"EOF"⟩).2 rfl rfl
  exact ⟨hg.1, (hg.2 "svg:forks:boom" rfl).1, (hl.2 "svg:forks:EOF" rfl).1⟩

/-- Claim C8: a render error yields HTTP 500 whose body is the fixed plain
text, with a text/plain content type, no Cache-Control header and no
image/svg+xml content type, on both handlers. -/
theorem render_error_gives_500 (c : GithubClient) (h : GitlabHttp)
    (render : RenderOracle) (req : BadgeRequest)
    (sg sl : String) (vg vl : Int) (eg el : Option GoErr) (e1 e2 : GoErr) :
    (githubFetchStage c req = (sg, (vg, eg)) →
       renderCall render (githubResolveParams sg vg eg req.query) = .error e1 →
       githubHandler c render req = .response (httpError "Internal Server Error" 500)) ∧
    (gitlabFetchStage h req = (sl, .ret vl el) →
       renderCall render (gitlabResolveParams sl vl el req.query) = .error e2 →
       gitlabHandler h render req = .response (httpError "Internal Server Error" 500)) ∧
    (httpError "Internal Server Error" 500).statusCode = 500 ∧
    (httpError "Internal Server Error" 500).body = "Internal Server Error\n" ∧
    "Cache-Control" ∉ ((httpError "Internal Server Error" 500).headers.map Prod.fst) ∧
    ("Content-Type", "image/svg+xml;utf-8") ∉ (httpError "Internal Server Error" 500).headers ∧
    ("Content-Type", "text/plain; charset=utf-8") ∈
      (httpError "Internal Server Error" 500).headers := by
  refine ⟨fun hf hr => ?_, fun hf hr => ?_, rfl, rfl, by decide, by decide, by decide⟩
  · simp [githubHandler, hf, hr]
  · simp [gitlabHandler, hf, hr]

/-- Claim C8 witness: a renderer that rejects the requested style produces the
500 response on both handlers even though both fetches succeeded. -/
theorem render_error_gives_500_check :
    githubHandler (okClient 5) pickyRender reqForksBadStyle =
      .response (httpError "Internal Server Error" 500) ∧
    gitlabHandler (gitlabOkWorld "7" 1 2) pickyRender reqForksBadStyle =
      .response (httpError "Internal Server Error" 500) ∧
    (httpError "Internal Server Error" 500).statusCode = 500 := by
  have h := render_error_gives_500 (okClient 5) (gitlabOkWorld "7" 1 2) pickyRender
    reqForksBadStyle "forks" "forks" 5 2 none none ⟨"invalid style"⟩ ⟨"invalid style"⟩
  exact ⟨h.1 rfl rfl, h.2.1 rfl rfl, h.2.2.1⟩

/-- Claim C4 counterexample: on a response with no X-Total header the gitlab
issue fetcher returns the negative count -1 (together with the Atoi error),
so a fetcher can return a negative count. -/
theorem fetcher_negative_count_example :
    gitlabGetIssueCount (gitlabErrWorld "EOF") "a" "b" "" =
      .ret (-1) (some (atoiErr "")) ∧ (-1 : Int) < 0 :=
  ⟨rfl, by decide⟩

/-- Claim C4 (amended): no fetcher pairs a meaningful count with an error:
the github fetchers pass the client's (count, error) pair through unchanged,
and any gitlab fetcher that returns an error returns the sentinel count -1
with it (transport failures abort the process instead of returning). -/
theorem fetcher_error_sentinel (c : GithubClient) (h : GitlabHttp) (owner repo s : String) :
    githubGetForkCount c owner repo = c.forksQuery owner repo ∧
    githubGetIssueCount c owner repo s = c.issuesQuery owner repo (githubIssueStates s) ∧
    githubGetPullRequestCount c owner repo s =
      c.pullRequestsQuery owner repo (githubPullRequestStates s) ∧
    githubGetStargazerCount c owner repo = c.stargazersQuery owner repo ∧
    (∀ n e, gitlabGetForkCount h owner repo = .ret n (some e) → n = -1) ∧
    (∀ n e, gitlabGetIssueCount h owner repo s = .ret n (some e) → n = -1) ∧
    (∀ n e, gitlabGetPullRequestCount h owner repo s = .ret n (some e) → n = -1) ∧
    (∀ n e, gitlabGetStargazerCount h owner repo = .ret n (some e) → n = -1) := by
  refine ⟨rfl, rfl, rfl, rfl, ?_, ?_, ?_, ?_⟩
  · intro n e heq
    unfold gitlabGetForkCount at heq
    rcases hn : h.newRequestErr (gitlabProjectURL owner repo) with _ | x
    · simp only [hn] at heq
      rcases hr : h.respond (gitlabProjectURL owner repo) with e2 | resp
      · simp only [hr] at heq
        simp at heq
      · simp only [hr] at heq
        rcases hb : resp.projectBody with e3 | project
        · simp only [hb] at heq
          injection heq with h1 h2
          exact h1.symm
        · simp only [hb] at heq
          simp at heq
    · simp only [hn] at heq
      simp at heq
  · intro n e heq
    unfold gitlabGetIssueCount at heq
    rcases hn : h.newRequestErr (gitlabIssueCountURL owner repo s) with _ | x
    · simp only [hn] at heq
      rcases hr : h.respond (gitlabIssueCountURL owner repo s) with e2 | resp
      · simp only [hr] at heq
        simp at heq
      · simp only [hr] at heq
        rcases ha : atoi resp.xTotal with _ | m
        · simp only [ha] at heq
          injection heq with h1 h2
          exact h1.symm
        · simp only [ha] at heq
          simp at heq
    · simp only [hn] at heq
      simp at heq
  · intro n e heq
    unfold gitlabGetPullRequestCount at heq
    rcases hn : h.newRequestErr (gitlabMergeRequestCountURL owner repo s) with _ | x
    · simp only [hn] at heq
      rcases hr : h.respond (gitlabMergeRequestCountURL owner repo s) with e2 | resp
      · simp only [hr] at heq
        simp at heq
      · simp only [hr] at heq
        rcases ha : atoi resp.xTotal with _ | m
        · simp only [ha] at heq
          injection heq with h1 h2
          exact h1.symm
        · simp only [ha] at heq
          simp at heq
    · simp only [hn] at heq
      simp at heq
  · intro n e heq
    unfold gitlabGetStargazerCount at heq
    rcases hn : h.newRequestErr (gitlabProjectURL owner repo) with _ | x
    · simp only [hn] at heq
      rcases hr : h.respond (gitlabProjectURL owner repo) with e2 | resp
      · simp only [hr] at heq
        simp at heq
      · simp only [hr] at heq
        rcases hb : resp.projectBody with e3 | project
        · simp only [hb] at heq
          injection heq with h1 h2
          exact h1.symm
        · simp only [hb] at heq
          simp at heq
    · simp only [hn] at heq
      simp at heq

/-- Claim C4 witness: the github fork fetcher passes its client pair through,
and the gitlab fork fetcher on an undecodable body returns the sentinel -1. -/
theorem fetcher_error_sentinel_check :
    githubGetForkCount (okClient 7) "a" "b" = (okClient 7).forksQuery "a" "b" ∧
    gitlabGetForkCount (gitlabErrWorld "EOF") "a" "b" = .ret (-1) (some ⟨"EOF"⟩) ∧
    (-1 : Int) = -1 := by
  have h := fetcher_error_sentinel (okClient 7) (gitlabErrWorld "EOF") "a" "b" ""
  exact ⟨h.1, rfl, h.2.2.2.2.1 (-1) ⟨"EOF"⟩ rfl⟩

end Badger
